import Mathlib

/-!
Shallow embedding of the AgentPro research-assistant core: the tool
registry (`base_tool.py`), the concrete tools (`search_tool.py`,
`report_tool.py`) and the ReAct orchestration loop with its action
parser (`agent.py`).

Python values that flow through the loop (results of `json.loads`,
dictionary fields, `None`) are modelled by `PVal`; Python exceptions are
modelled by the `Except String` error channel, with the message carrying
`str(e)`.  The OpenAI client is external to the repository: the reasoning
backend is a parameter (`AgentEnv.backend`), as is `json.loads`
(`AgentEnv.loads`), while everything the repository's own code does with
their results is embedded concretely.
-/

namespace AgentPro

/-! ### Python data model -/

/-- A Python value as it appears inside `ReActAgent.run`: `None`, a string,
an integer, or a dict with string keys (the shapes `json.loads` produces
for the structured responses the loop handles; lists and floats are never
needed by the behaviours under study). -/
inductive PVal where
  | vnone
  | vstr (s : String)
  | vnum (n : Int)
  | vdict (fields : List (String × PVal))

/-- Python truthiness, as used by `if not action_data`. -/
def truthy : PVal → Bool
  | .vnone => false
  | .vstr s => !(s.isEmpty)
  | .vnum n => !(n == 0)
  | .vdict fs => !(fs.isEmpty)

/-- Key lookup in a parsed dict.  Dicts produced by `json.loads` have
unique keys, so first-match lookup agrees with Python's dict. -/
def dictGet : List (String × PVal) → String → Option PVal
  | [], _ => none
  | (k, v) :: rest, key => if k = key then some v else dictGet rest key

mutual

/-- `repr(obj)`, used when a dict is formatted into an f-string. -/
def pyRepr : PVal → String
  | .vnone => "None"
  | .vstr s => "'" ++ s ++ "'"
  | .vnum n => toString n
  | .vdict fs => "\x7b" ++ pyReprFields fs ++ "\x7d"

/-- The comma-separated `'key': repr(value)` items of a dict's `repr`. -/
def pyReprFields : List (String × PVal) → String
  | [] => ""
  | [(k, v)] => "'" ++ k ++ "': " ++ pyRepr v
  | (k, v) :: rest => "'" ++ k ++ "': " ++ pyRepr v ++ ", " ++ pyReprFields rest

end

/-- `str(obj)` / f-string formatting for the values above: a string
formats as itself, `None` as `"None"`, numbers decimally, and a dict with
its `repr`. -/
def pyFormat : PVal → String
  | .vnone => "None"
  | .vstr s => s
  | .vnum n => toString n
  | .vdict fs => pyRepr (.vdict fs)

/-- Does the pattern match at the head of the text? -/
def matchesAt : List Char → List Char → Bool
  | [], _ => true
  | _ :: _, [] => false
  | p :: ps, c :: cs => p = c && matchesAt ps cs

/-- Python's substring test `needle in haystack`. -/
def hasSubstring (pat : List Char) : List Char → Bool
  | [] => pat.isEmpty
  | c :: rest => matchesAt pat (c :: rest) || hasSubstring pat rest

/-- `key in obj` (Python `in`): key membership on a dict, substring test
on a string, and a `TypeError` on values that are not containers. -/
def pyIn (key : String) : PVal → Except String Bool
  | .vdict fs => .ok ((dictGet fs key).isSome)
  | .vstr s => .ok (hasSubstring key.data s.data)
  | .vnum _ => .error "argument of type 'int' is not iterable"
  | .vnone => .error "argument of type 'NoneType' is not iterable"

/-- `obj[key]` subscription with a string key: dict lookup (`KeyError` if
absent), `TypeError` otherwise. -/
def pySubscript (v : PVal) (key : String) : Except String PVal :=
  match v with
  | .vdict fs =>
    match dictGet fs key with
    | some w => .ok w
    | none => .error ("'" ++ key ++ "'")
  | .vstr _ => .error "string indices must be integers"
  | .vnum _ => .error "'int' object is not subscriptable"
  | .vnone => .error "'NoneType' object is not subscriptable"

/-- `obj.get(key)`: dict lookup defaulting to `None`; `AttributeError` on
anything that is not a dict. -/
def pyGet (v : PVal) (key : String) : Except String PVal :=
  match v with
  | .vdict fs =>
    match dictGet fs key with
    | some w => .ok w
    | none => .ok .vnone
  | .vstr _ => .error ("'str' object has no attribute 'get'")
  | .vnum _ => .error ("'int' object has no attribute 'get'")
  | .vnone => .error ("'NoneType' object has no attribute 'get'")

/-- `obj.get(key, default)`. -/
def pyGetD (v : PVal) (key : String) (dflt : PVal) : Except String PVal :=
  match v with
  | .vdict fs =>
    match dictGet fs key with
    | some w => .ok w
    | none => .ok dflt
  | .vstr _ => .error ("'str' object has no attribute 'get'")
  | .vnum _ => .error ("'int' object has no attribute 'get'")
  | .vnone => .error ("'NoneType' object has no attribute 'get'")

/-- The display truncation `argument[:100]` performed before dispatch
(agent.py line 159).  Python slicing clamps, so any string succeeds — even
one shorter than 100 characters — while `None` and other non-sliceable
values raise a `TypeError`. -/
def sliceForLog : PVal → Except String PVal
  | .vstr s => .ok (.vstr (s.take 100))
  | .vnone => .error "'NoneType' object is not subscriptable"
  | .vnum _ => .error "'int' object is not subscriptable"
  | .vdict _ => .error "unhashable type: 'slice'"

/-- `obj == "final_answer"`: Python equality between an arbitrary object
and a string literal is true only for an equal string. -/
def pyEqStr (v : PVal) (s : String) : Bool :=
  match v with
  | .vstr t => t = s
  | _ => false

end AgentPro

namespace AgentPro

/-! ### Tool descriptors and the registry (`base_tool.py`, `agent.py` ctor) -/

/-- `Tool.model_post_init` normalizes the name with
`self.name.lower().replace(' ', '_').replace('-', '_')`.  Both replaced
patterns are single characters, so the composition acts characterwise:
this is that action on one character. -/
def normChar (c : Char) : Char :=
  let lc := c.toLower
  if lc = ' ' then '_' else if lc = '-' then '_' else lc

/-- `name.lower().replace(' ', '_').replace('-', '_')` from
`Tool.model_post_init` (base_tool.py line 45). -/
def normalizeName (s : String) : String := String.mk (s.data.map normChar)

/-- Python's `str.lower()`, which acts characterwise. -/
def lowerString (s : String) : String := String.mk (s.data.map Char.toLower)

/-- A tool as `base_tool.Tool` declares it: a name, two description
strings, and the `run` method taking the (Python) argument the agent
passes and either returning a string or raising. -/
structure Tool where
  name : String
  description : String
  arg_description : String
  run : PVal → Except String String

/-- `Tool.model_post_init` (base_tool.py lines 38-48): snake_cases the
name and lowercases both descriptions.  Pydantic invokes it whenever a
`Tool` is constructed. -/
def model_post_init (t : Tool) : Tool :=
  { t with
    name := normalizeName t.name
    description := lowerString t.description
    arg_description := lowerString t.arg_description }

/-- Insertion into a Python dict: an existing key keeps its position and
gets the new value, a new key is appended (insertion order preserved). -/
def dictInsert (m : List (String × Tool)) (k : String) (v : Tool) :
    List (String × Tool) :=
  if m.any (fun p => p.1 = k) then
    m.map (fun p => if p.1 = k then (k, v) else p)
  else m ++ [(k, v)]

/-- `self.tools = {tool.name: tool for tool in tools}` from
`ReActAgent.__init__` (agent.py line 68): a dict comprehension over the
already-constructed tools, keyed by their (already normalized) names. -/
def agentInit (tools : List Tool) : List (String × Tool) :=
  tools.foldl (fun m t => dictInsert m t.name t) []

/-- `self.tools[tool_name]` for a string key (agent.py line 170). -/
def toolsLookup (m : List (String × Tool)) (k : String) : Option Tool :=
  (m.find? (fun p => p.1 = k)).map (fun p => p.2)

/-- `tool_name not in self.tools`, negated: dict membership keyed on the
raw object the model produced — no normalization happens here (agent.py
line 166).  Unhashable keys raise. -/
def pyDictMem (m : List (String × Tool)) : PVal → Except String Bool
  | .vstr s => .ok (m.any (fun p => p.1 = s))
  | .vnum _ => .ok false
  | .vnone => .ok false
  | .vdict _ => .error "unhashable type: 'dict'"

/-- `_internal_web_search` (search_tool.py lines 19-29). -/
def _internal_web_search (query : String) : String :=
  "Simulated search results for '" ++ query ++ "':\n- Result 1: Information about "
    ++ query ++ "...\n- Result 2: More details on " ++ query
    ++ "...\n- Result 3: Related topics to " ++ query ++ "..."

/-- `InternetSearchTool` (search_tool.py lines 31-64), as constructed by
pydantic: the declared field defaults passed through `model_post_init`.
Its `run` formats the argument into the simulated-results string. -/
def InternetSearchTool : Tool := model_post_init
  { name := "Internet Search Tool"
    description := "Searches the internet for information on a given topic or query. Returns a summary of the search results."
    arg_description := "The search query or topic to look up online."
    run := fun arg => .ok (_internal_web_search (pyFormat arg)) }

end AgentPro

namespace AgentPro

/-! ### The action parser `extract_json_block` (agent.py lines 12-38)

The fallback uses `re.search(r"```json\\n(.*?)\\n```", text,
re.DOTALL | re.IGNORECASE)`.  The pattern is a *raw* string, so `\\n`
stands for a literal backslash followed by the letter n — not a newline.
The model below implements exactly that pattern: literal opener
`` ```json`` + backslash + n, a shortest (non-greedy, dot-matches-all)
group, literal backslash + n + `` ``` ``, all case-insensitively. -/

/-- Case-insensitive character match (`re.IGNORECASE`). -/
def charIEq (a b : Char) : Bool := a.toLower = b.toLower

/-- Does the literal pattern match at the head of the text,
case-insensitively? -/
def matchesAtCI : List Char → List Char → Bool
  | [], _ => true
  | _ :: _, [] => false
  | p :: ps, c :: cs => charIEq p c && matchesAtCI ps cs

/-- The literal characters the pattern requires before the group:
three backticks, `json`, a backslash, the letter n. -/
def blockOpen : List Char := "```json\\n".data

/-- The literal characters the pattern requires after the group:
a backslash, the letter n, three backticks. -/
def blockClose : List Char := "\\n```".data

/-- After `blockOpen` has matched, the non-greedy `(.*?)` extends the
group to the earliest following occurrence of `blockClose` (`re.DOTALL`
lets it cross newlines); no occurrence means the match attempt fails. -/
def scanGroup : List Char → List Char → Option (List Char)
  | [], _ => none
  | c :: rest, acc =>
    if matchesAtCI blockClose (c :: rest) then some acc.reverse
    else scanGroup rest (c :: acc)

/-- One `re.search` attempt anchored at the head of the text. -/
def tryMatchAt (text : List Char) : Option (List Char) :=
  if matchesAtCI blockOpen text then scanGroup (text.drop blockOpen.length) []
  else none

/-- `re.search`: attempt the pattern at each start position, left to
right, and return the first full match's group. -/
def regexSearchBlock : List Char → Option (List Char)
  | [] => none
  | c :: rest =>
    match tryMatchAt (c :: rest) with
    | some g => some g
    | none => regexSearchBlock rest

/-- `extract_json_block` (agent.py lines 12-38).  `loads` stands for the
standard library's `json.loads`, returning `none` where it would raise
`JSONDecodeError`; `String.trim` models `json_str.strip()` (identical on
the ASCII whitespace arising here). -/
def extract_json_block {α : Type} (loads : String → Option α)
    (text : String) : Option α :=
  match loads text with
  | some data => some data
  | none =>
    match regexSearchBlock text.data with
    | some g => loads (String.mk g).trim
    | none => none

end AgentPro

namespace AgentPro

/-! ### The ReAct loop `ReActAgent.run` (agent.py lines 110-191)

The reasoning backend (`self.client.chat.completions.create` followed by
`.choices[0].message.content`) is external: it is a parameter mapping the
current transcript to either a completion string or a raised exception.
The constructor guarantees a client is present (`__init__` raises
otherwise), so the guard at line 119 never fires for a constructed agent
and is not modelled. -/

/-- A transcript entry: `{"role": ..., "content": ...}`. -/
structure Msg where
  role : String
  content : String
deriving DecidableEq

/-- The loop's collaborators: `json.loads`, the registered tools as built
by `__init__`, and the reasoning backend. -/
structure AgentEnv where
  loads : String → Option PVal
  tools : List (String × Tool)
  backend : List Msg → Except String String

/-- The corrective observation appended on parse failure (line 151). -/
def parseFailureObs : String :=
  "Observation: Your previous response was not in the expected JSON format. Please think step-by-step and provide your reasoning and action in the specified JSON structure."

/-- The tool-not-found observation text (line 167). -/
def notFoundMsg (tool_name : PVal) (tools : List (String × Tool)) : String :=
  "Error: Tool '" ++ pyFormat tool_name ++ "' not found. Available tools are: "
    ++ String.intercalate ", " (tools.map (fun p => p.1))

/-- The tool-execution-failure observation text (line 178). -/
def execErrorMsg (tool_name : PVal) (e : String) : String :=
  "Error executing tool " ++ pyFormat tool_name ++ ": " ++ e

/-- The observation appended when an exception reaches the iteration
boundary (line 187). -/
def iterErrorObs (e : String) : String :=
  "Observation: An error occurred in the previous step: " ++ e
    ++ ". Please assess the situation and proceed."

/-- The budget-exhausted return value (line 191). -/
def maxIterationsMsg : String :=
  "Error: Agent reached maximum iterations without providing a final answer."

/-- The default of the `max_iterations` field (agent.py line 47). -/
def max_iterations_default : Nat := 5

/-- Outcome of one loop iteration: `done v` is the `return argument` at
line 164; `next msgs` continues with the grown transcript. -/
inductive StepRes where
  | done (v : PVal)
  | next (msgs : List Msg)

/-- `self.tools[tool_name]` (line 170): subscription of the registry by
the raw parsed value; reached only for keys whose membership test
succeeded, hence only for strings. -/
def toolsSubscript (m : List (String × Tool)) : PVal → Option Tool
  | .vstr s => toolsLookup m s
  | _ => none

/-- Lines 154-182: read `thought`, `tool_name` and `argument` out of the
parsed dict, display-slice the argument, then either terminate on the
`final_answer` sentinel or dispatch: unknown identifiers synthesize a
not-found observation, a raising tool is caught by the inner `except`
(line 177) and converted to an error observation. -/
def dispatchAction (env : AgentEnv) (msgs1 : List Msg) (d : PVal) :
    Except String StepRes :=
  match pyGetD d "thought" (.vstr "No thought provided.") with
  | .error e => .error e
  | .ok _thought =>
    match pySubscript d "action" with
    | .error e => .error e
    | .ok act =>
      match pyGet act "tool_name" with
      | .error e => .error e
      | .ok tool_name =>
        match pyGet act "argument" with
        | .error e => .error e
        | .ok argument =>
          match sliceForLog argument with
          | .error e => .error e
          | .ok _ =>
            if pyEqStr tool_name "final_answer" then
              .ok (.done argument)
            else
              match pyDictMem env.tools tool_name with
              | .error e => .error e
              | .ok mem =>
                if !mem then
                  .ok (.next (msgs1 ++
                    [⟨"user", "Observation: " ++ notFoundMsg tool_name env.tools⟩]))
                else
                  match toolsSubscript env.tools tool_name with
                  | none =>
                    -- unreachable: membership succeeded just above
                    .error ("KeyError: " ++ pyFormat tool_name)
                  | some selected =>
                    match selected.run argument with
                    | .ok obs =>
                      .ok (.next (msgs1 ++ [⟨"user", "Observation: " ++ obs⟩]))
                    | .error e =>
                      .ok (.next (msgs1 ++
                        [⟨"user", "Observation: " ++ execErrorMsg tool_name e⟩]))

/-- Lines 147-182: the iteration body after the reasoning call returned
`out` and the assistant message was appended (transcript `msgs1`).  The
guard is line 148's short-circuit
`not action_data or 'action' not in action_data or 'tool_name' not in
action_data['action']`; an `.error` escaping here is an exception
reaching the iteration boundary's `except` at line 184. -/
def stepBody (env : AgentEnv) (msgs1 : List Msg) (out : String) :
    Except String StepRes :=
  match extract_json_block env.loads out with
  | none => .ok (.next (msgs1 ++ [⟨"user", parseFailureObs⟩]))
  | some d =>
    if !truthy d then .ok (.next (msgs1 ++ [⟨"user", parseFailureObs⟩]))
    else
      match pyIn "action" d with
      | .error e => .error e
      | .ok hasAction =>
        if !hasAction then .ok (.next (msgs1 ++ [⟨"user", parseFailureObs⟩]))
        else
          match pySubscript d "action" with
          | .error e => .error e
          | .ok act0 =>
            match pyIn "tool_name" act0 with
            | .error e => .error e
            | .ok hasTool =>
              if !hasTool then
                .ok (.next (msgs1 ++ [⟨"user", parseFailureObs⟩]))
              else dispatchAction env msgs1 d

/-- One iteration of the `for` loop (lines 130-188): call the backend,
append the assistant turn, run the body; any exception from the call
itself or from the body is caught at line 184 and becomes an
observation.  (A backend exception precedes the `messages.append` at
line 144, so no assistant turn is recorded for it.) -/
def step (env : AgentEnv) (msgs : List Msg) : StepRes :=
  match env.backend msgs with
  | .error e => .next (msgs ++ [⟨"user", iterErrorObs e⟩])
  | .ok out =>
    let msgs1 := msgs ++ [⟨"assistant", out⟩]
    match stepBody env msgs1 out with
    | .ok r => r
    | .error e => .next (msgs1 ++ [⟨"user", iterErrorObs e⟩])

/-- The iteration loop with `fuel` iterations remaining, also counting
the reasoning-backend calls made so far; exhausting the budget returns
the fixed error message (line 191). -/
def runFrom (env : AgentEnv) : Nat → List Msg → Nat → PVal × Nat
  | 0, _, calls => (.vstr maxIterationsMsg, calls)
  | fuel + 1, msgs, calls =>
    match step env msgs with
    | .done v => (v, calls + 1)
    | .next msgs2 => runFrom env fuel msgs2 (calls + 1)

/-- The transcript reached after `n` iterations of the loop (stopping
early if an iteration returns): the trajectory `runFrom` walks, exposed
so that "no iteration of this run produced the sentinel" can be stated. -/
def iterateMsgs (env : AgentEnv) : Nat → List Msg → List Msg
  | 0, m => m
  | n + 1, m =>
    match step env m with
    | .done _ => m
    | .next m2 => iterateMsgs env n m2

/-- `Tool.get_tool_description_for_llm` (base_tool.py lines 65-74). -/
def get_tool_description_for_llm (t : Tool) : String :=
  "Tool Name: " ++ t.name ++ "\nDescription: " ++ t.description
    ++ "\nArgument: " ++ t.arg_description

/-- `_get_system_prompt` (agent.py lines 72-108): one system message per
run, embedding each registered tool's description.  The surrounding
instruction prose is fixed text with no bearing on the loop's behaviour
and is abbreviated to a header. -/
def _get_system_prompt (tools : List (String × Tool)) : String :=
  "ReAct system instructions\n\nAvailable Tools:\n"
    ++ String.intercalate "\n\n" (tools.map (fun p => get_tool_description_for_llm p.2))

/-- `ReActAgent.run` (agent.py lines 110-191): seed the transcript with
the system prompt and the task, then iterate at most `max_iterations`
times.  Returns the Python value `run` returns together with the number
of reasoning-backend calls performed. -/
def ReActAgent.run (env : AgentEnv) (max_iterations : Nat) (task : String) :
    PVal × Nat :=
  runFrom env max_iterations
    [⟨"system", _get_system_prompt env.tools⟩,
     ⟨"user", "The user's task is: " ++ task⟩] 0

end AgentPro

namespace AgentPro

/-! ### Concrete instances used by witnesses and counterexamples

Each is an ordinary value of the embedding: a fixed model response, a
`json.loads` table defined on the strings that actually occur, a backend
producing that response, and the registries the scenarios need. -/

/-- A model response whose outer text is not valid JSON but which carries
a properly fenced ```json block (real newlines) with parseable content. -/
def c1Text : String := "Here is my plan.\n```json\n\x7b\"answer\": 42\x7d\n```\nDone."

/-- The content enclosed by the fenced block of `c1Text`. -/
def c1Inner : String := "\x7b\"answer\": 42\x7d"

/-- `json.loads` restricted to the strings of the C1 scenario: the inner
content is valid structured data, the whole response is not. -/
def c1Loads : String → Option PVal :=
  fun s => if s = c1Inner then some (.vdict [("answer", .vnum 42)]) else none

/-- A second tool whose declared name normalizes to the same identifier
as `InternetSearchTool`'s. -/
def InternetSearchToolClash : Tool := model_post_init
  { name := "Internet-Search Tool"
    description := "A second tool whose name collides with the search tool after normalization."
    arg_description := "The query."
    run := fun arg => .ok (_internal_web_search (pyFormat arg)) }

/-- The registry of an agent constructed with the search tool alone. -/
def searchRegistry : List (String × Tool) := agentInit [InternetSearchTool]

/-- A tool whose `run` raises. -/
def CrashingTool : Tool := model_post_init
  { name := "Crashing Tool"
    description := "A tool whose execute operation raises an exception."
    arg_description := "Any input."
    run := fun _ => .error "simulated failure" }

/-- A parsed response selecting `final_answer` with a string argument. -/
def finalDict : PVal := .vdict
  [("thought", .vstr "I am done."),
   ("action", .vdict
     [("tool_name", .vstr "final_answer"),
      ("argument", .vstr "Final report text.")])]

def finalOut : String := "final-response"

/-- Environment whose backend immediately selects `final_answer`. -/
def env4 : AgentEnv :=
  ⟨fun s => if s = finalOut then some finalDict else none,
   searchRegistry, fun _ => .ok finalOut⟩

/-- Environment whose backend never produces parseable output. -/
def env5 : AgentEnv := ⟨fun _ => none, [], fun _ => .ok "I refuse to emit JSON."⟩

/-- A parsed response naming an unregistered tool and carrying no
argument field. -/
def c6BadDict : PVal := .vdict
  [("action", .vdict [("tool_name", .vstr "missing_tool")])]

def c6BadOut : String := "bad-tool-no-arg"

def env6c : AgentEnv :=
  ⟨fun s => if s = c6BadOut then some c6BadDict else none,
   searchRegistry, fun _ => .ok c6BadOut⟩

/-- A parsed response naming an unregistered tool with a string argument. -/
def c6Dict : PVal := .vdict
  [("action", .vdict
    [("tool_name", .vstr "missing_tool"), ("argument", .vstr "some query")])]

def c6Out : String := "bad-tool-with-arg"

def env6 : AgentEnv :=
  ⟨fun s => if s = c6Out then some c6Dict else none,
   searchRegistry, fun _ => .ok c6Out⟩

/-- A parsed response dispatching to the crashing tool. -/
def c7Dict : PVal := .vdict
  [("action", .vdict
    [("tool_name", .vstr "crashing_tool"), ("argument", .vstr "input")])]

def c7Out : String := "crash-response"

def env7 : AgentEnv :=
  ⟨fun s => if s = c7Out then some c7Dict else none,
   agentInit [CrashingTool], fun _ => .ok c7Out⟩

/-- A response that is valid structured data but has no action object. -/
def c8Dict : PVal := .vdict [("thought", .vstr "pondering")]

def c8Out : String := "no-action-response"

def c8Loads : String → Option PVal :=
  fun s => if s = c8Out then some c8Dict else none

def c8Backend : List Msg → Except String String := fun _ => .ok c8Out

/-- A parsed response dispatching to the registered search tool but with
the argument field absent. -/
def c9Dict : PVal := .vdict
  [("action", .vdict [("tool_name", .vstr "internet_search_tool")])]

def c9Out : String := "search-no-arg"

def env9 : AgentEnv :=
  ⟨fun s => if s = c9Out then some c9Dict else none,
   searchRegistry, fun _ => .ok c9Out⟩

/-- A parsed response selecting `final_answer` with no argument field. -/
def c10Dict : PVal := .vdict
  [("action", .vdict [("tool_name", .vstr "final_answer")])]

def c10Out : String := "final-no-arg"

def env10 : AgentEnv :=
  ⟨fun s => if s = c10Out then some c10Dict else none,
   searchRegistry, fun _ => .ok c10Out⟩

end AgentPro

namespace AgentPro

/-! ### Supporting lemmas on normalization -/

theorem toNat_ofNat_of_valid (n : Nat) (h : n.isValidChar) :
    (Char.ofNat n).toNat = n := by
  rw [Char.ofNat, dif_pos h]
  simp [Char.ofNatAux, Char.toNat, UInt32.toNat, BitVec.toNat_ofNatLt]

theorem toLower_idem (c : Char) : c.toLower.toLower = c.toLower := by
  unfold Char.toLower
  by_cases h : c.toNat ≥ 65 ∧ c.toNat ≤ 90
  · rw [if_pos h]
    have hv : (c.toNat + 32).isValidChar := Or.inl (by omega)
    have ht : (Char.ofNat (c.toNat + 32)).toNat = c.toNat + 32 :=
      toNat_ofNat_of_valid _ hv
    rw [if_neg]
    rw [ht]
    omega
  · rw [if_neg h, if_neg h]

theorem normChar_idem (c : Char) : normChar (normChar c) = normChar c := by
  unfold normChar
  by_cases h1 : c.toLower = ' '
  · simp [h1]
  · by_cases h2 : c.toLower = '-'
    · simp [h1, h2]
    · simp only [h1, h2, if_false]
      rw [toLower_idem]
      simp [h1, h2]

theorem map_normChar_idem (l : List Char) :
    l.map (fun c => normChar (normChar c)) = l.map normChar := by
  induction l with
  | nil => rfl
  | cons c cs ih => simp [normChar_idem, ih]

theorem normalizeName_idem (s : String) :
    normalizeName (normalizeName s) = normalizeName s := by
  unfold normalizeName
  simp only [List.map_map, Function.comp_def]
  rw [map_normChar_idem]

/-! ### Supporting lemmas on the registry -/

theorem map_fst_replace (l : List (String × Tool)) (k : String) (v : Tool) :
    l.map (Prod.fst ∘ fun p => if p.1 = k then (k, v) else p) =
      l.map Prod.fst := by
  induction l with
  | nil => rfl
  | cons p rest ih =>
    simp only [List.map_cons, Function.comp_apply, ih]
    by_cases hp : p.1 = k
    · simp [hp]
    · simp [hp]

theorem keys_dictInsert (m : List (String × Tool)) (k : String) (v : Tool) :
    (dictInsert m k v).map Prod.fst =
      if m.any (fun p => p.1 = k) then m.map Prod.fst
      else m.map Prod.fst ++ [k] := by
  unfold dictInsert
  by_cases h : m.any (fun p => p.1 = k)
  · simp only [h, if_true, List.map_map]
    exact map_fst_replace m k v
  · simp [h]

theorem nodup_keys_dictInsert (m : List (String × Tool)) (k : String)
    (v : Tool) (h : (m.map Prod.fst).Nodup) :
    ((dictInsert m k v).map Prod.fst).Nodup := by
  rw [keys_dictInsert]
  by_cases ha : m.any (fun p => p.1 = k)
  · simpa [ha] using h
  · have ha' : m.any (fun p => p.1 = k) = false := by
      rw [Bool.not_eq_true] at ha; exact ha
    have hk : k ∉ m.map Prod.fst := by
      intro hmem
      rcases List.mem_map.mp hmem with ⟨p, hp, hpk⟩
      have : m.any (fun p => p.1 = k) = true :=
        List.any_eq_true.mpr ⟨p, hp, by simp [hpk]⟩
      simp [this] at ha
    rw [if_neg (by simp [ha'])]
    rw [List.nodup_append]
    refine ⟨h, List.nodup_singleton k, ?_⟩
    intro a haa hb
    rw [List.mem_singleton] at hb
    subst hb
    exact hk haa

theorem nodup_keys_agentInit_aux (ts : List Tool) (m : List (String × Tool))
    (h : (m.map Prod.fst).Nodup) :
    ((ts.foldl (fun m t => dictInsert m t.name t) m).map Prod.fst).Nodup := by
  induction ts generalizing m with
  | nil => exact h
  | cons t rest ih =>
    exact ih _ (nodup_keys_dictInsert m t.name t h)

theorem any_of_toolsLookup {m : List (String × Tool)} {nm : String} {t : Tool}
    (h : toolsLookup m nm = some t) :
    m.any (fun p => p.1 = nm) = true := by
  unfold toolsLookup at h
  cases hf : m.find? (fun p => p.1 = nm) with
  | none => rw [hf] at h; simp at h
  | some p =>
    have hp := List.find?_some hf
    have hmem := List.mem_of_find?_eq_some hf
    exact List.any_eq_true.mpr ⟨p, hmem, hp⟩

end AgentPro

namespace AgentPro

/-! ### Supporting lemmas on the iteration body -/

theorem pyEqStr_eq_true {v : PVal} {s : String} (h : pyEqStr v s = true) :
    v = .vstr s := by
  cases v with
  | vstr t => simp only [pyEqStr, decide_eq_true_eq] at h; rw [h]
  | vnone => simp [pyEqStr] at h
  | vnum n => simp [pyEqStr] at h
  | vdict fs => simp [pyEqStr] at h

theorem isEmpty_false_of_dictGet {fs : List (String × PVal)} {k : String}
    {v : PVal} (h : dictGet fs k = some v) : fs.isEmpty = false := by
  cases fs with
  | nil => simp [dictGet] at h
  | cons p rest => rfl

/-- Under a successfully parsed dict whose `action` member is a dict
carrying a `tool_name`, the line-148 guard passes and the body proceeds
to the action phase. -/
theorem stepBody_dispatch (env : AgentEnv) (msgs1 : List Msg) (out : String)
    {fs afs : List (String × PVal)} {tn : PVal}
    (he : extract_json_block env.loads out = some (.vdict fs))
    (ha : dictGet fs "action" = some (.vdict afs))
    (ht : dictGet afs "tool_name" = some tn) :
    stepBody env msgs1 out = dispatchAction env msgs1 (.vdict fs) := by
  have hfs := isEmpty_false_of_dictGet ha
  simp [stepBody, he, truthy, hfs, pyIn, ha, pySubscript, ht]

/-- The action phase on the `final_answer` sentinel with a string
argument: the body returns that argument. -/
theorem dispatch_final (env : AgentEnv) (msgs1 : List Msg)
    {fs afs : List (String × PVal)} {s : String}
    (ha : dictGet fs "action" = some (.vdict afs))
    (ht : dictGet afs "tool_name" = some (.vstr "final_answer"))
    (harg : dictGet afs "argument" = some (.vstr s)) :
    dispatchAction env msgs1 (.vdict fs) = .ok (.done (.vstr s)) := by
  simp [dispatchAction, pyGetD, pySubscript, ha, pyGet, ht, harg,
    sliceForLog, pyEqStr]
  cases dictGet fs "thought" <;> rfl

/-- The action phase on an unknown identifier with a string argument:
the body appends the tool-not-found observation. -/
theorem dispatch_notFound (env : AgentEnv) (msgs1 : List Msg)
    {fs afs : List (String × PVal)} {nm s : String}
    (ha : dictGet fs "action" = some (.vdict afs))
    (ht : dictGet afs "tool_name" = some (.vstr nm))
    (harg : dictGet afs "argument" = some (.vstr s))
    (hne : nm ≠ "final_answer")
    (hmem : env.tools.any (fun p => p.1 = nm) = false) :
    dispatchAction env msgs1 (.vdict fs) =
      .ok (.next (msgs1 ++
        [⟨"user", "Observation: " ++ notFoundMsg (.vstr nm) env.tools⟩])) := by
  simp [dispatchAction, pyGetD, pySubscript, ha, pyGet, ht, harg,
    sliceForLog, pyEqStr, hne, pyDictMem, hmem]
  cases dictGet fs "thought" <;> rfl

/-- The action phase on a registered tool whose `run` raises: the inner
`except` converts the exception into an error observation. -/
theorem dispatch_toolError (env : AgentEnv) (msgs1 : List Msg)
    {fs afs : List (String × PVal)} {nm s e : String} {t : Tool}
    (ha : dictGet fs "action" = some (.vdict afs))
    (ht : dictGet afs "tool_name" = some (.vstr nm))
    (harg : dictGet afs "argument" = some (.vstr s))
    (hne : nm ≠ "final_answer")
    (hlook : toolsLookup env.tools nm = some t)
    (hrun : t.run (.vstr s) = .error e) :
    dispatchAction env msgs1 (.vdict fs) =
      .ok (.next (msgs1 ++
        [⟨"user", "Observation: " ++ execErrorMsg (.vstr nm) e⟩])) := by
  have hmem := any_of_toolsLookup hlook
  simp [dispatchAction, pyGetD, pySubscript, ha, pyGet, ht, harg,
    sliceForLog, pyEqStr, hne, pyDictMem, hmem, toolsSubscript, hlook, hrun]
  cases dictGet fs "thought" <;> rfl

/-- The action phase when the argument field is absent: `.get` yields
`None` and the display slice `argument[:100]` raises a `TypeError`. -/
theorem dispatch_noneArg (env : AgentEnv) (msgs1 : List Msg)
    {fs afs : List (String × PVal)} {tn : PVal}
    (ha : dictGet fs "action" = some (.vdict afs))
    (ht : dictGet afs "tool_name" = some tn)
    (harg : dictGet afs "argument" = none) :
    dispatchAction env msgs1 (.vdict fs) =
      .error "'NoneType' object is not subscriptable" := by
  simp [dispatchAction, pyGetD, pySubscript, ha, pyGet, ht, harg, sliceForLog]
  cases dictGet fs "thought" <;> rfl

/-- One iteration whose reasoning call returns `out`. -/
theorem step_ok (env : AgentEnv) (msgs : List Msg) (out : String)
    (hb : env.backend msgs = .ok out) :
    step env msgs =
      match stepBody env (msgs ++ [⟨"assistant", out⟩]) out with
      | .ok r => r
      | .error e =>
        .next (msgs ++ [⟨"assistant", out⟩] ++ [⟨"user", iterErrorObs e⟩]) := by
  simp [step, hb]

end AgentPro

namespace AgentPro

/-! ### Inversion: the only way an iteration returns -/

/-- If the action phase returned (`StepRes.done`), the parsed dict held a
dict-shaped `action` whose `tool_name` was exactly the string
`final_answer` and whose `argument` was a string, returned verbatim. -/
theorem dispatchAction_done_inv (env : AgentEnv) (msgs1 : List Msg)
    (d v : PVal) (h : dispatchAction env msgs1 d = .ok (.done v)) :
    ∃ fs afs s, d = .vdict fs ∧
      dictGet fs "action" = some (.vdict afs) ∧
      dictGet afs "tool_name" = some (.vstr "final_answer") ∧
      dictGet afs "argument" = some (.vstr s) ∧ v = .vstr s := by
  cases d with
  | vnone => simp [dispatchAction, pyGetD] at h
  | vstr s => simp [dispatchAction, pyGetD] at h
  | vnum n => simp [dispatchAction, pyGetD] at h
  | vdict fs =>
    unfold dispatchAction at h
    simp only [pyGetD] at h
    cases hth : dictGet fs "thought" <;> rw [hth] at h <;>
    · simp only [pySubscript] at h
      cases hda : dictGet fs "action" <;> rw [hda] at h
      · simp at h
      · rename_i a
        cases a with
        | vnone => simp [pyGet] at h
        | vstr s2 => simp [pyGet] at h
        | vnum n2 => simp [pyGet] at h
        | vdict afs =>
          simp only [pyGet] at h
          cases htn : dictGet afs "tool_name" <;> rw [htn] at h
          · -- tool_name absent: `.get` yields None, the sentinel test fails
            cases harg : dictGet afs "argument" <;> rw [harg] at h
            · simp [sliceForLog] at h
            · rename_i av
              cases av <;> simp [sliceForLog, pyEqStr, pyDictMem] at h
          · rename_i tn
            cases harg : dictGet afs "argument" <;> rw [harg] at h
            · simp [sliceForLog] at h
            · rename_i av
              cases av with
              | vnone => simp [sliceForLog] at h
              | vnum n3 => simp [sliceForLog] at h
              | vdict fs3 => simp [sliceForLog] at h
              | vstr s3 =>
                simp only [sliceForLog] at h
                by_cases hfa : pyEqStr tn "final_answer" = true
                · rw [if_pos (by simpa using hfa)] at h
                  simp only [Except.ok.injEq, StepRes.done.injEq] at h
                  exact ⟨fs, afs, s3, rfl, hda, pyEqStr_eq_true hfa ▸ htn,
                    harg, h.symm⟩
                · rw [if_neg (by simpa using hfa)] at h
                  cases hdm : pyDictMem env.tools tn <;> rw [hdm] at h
                  · simp at h
                  · rename_i mem
                    cases mem with
                    | false => simp at h
                    | true =>
                      cases hts : toolsSubscript env.tools tn <;>
                        simp only [hts] at h
                      · simp at h
                      · rename_i sel
                        cases hrun : sel.run (.vstr s3) <;>
                          simp [hrun] at h

/-- If the body returned, the parse succeeded and the action phase
returned that value. -/
theorem stepBody_done_inv (env : AgentEnv) (msgs1 : List Msg) (out : String)
    (v : PVal) (h : stepBody env msgs1 out = .ok (.done v)) :
    ∃ d, extract_json_block env.loads out = some d ∧
      dispatchAction env msgs1 d = .ok (.done v) := by
  unfold stepBody at h
  cases hex : extract_json_block env.loads out <;> simp only [hex] at h
  · simp at h
  · rename_i d
    by_cases htr : (!truthy d) = true
    · rw [if_pos htr] at h; simp at h
    · rw [if_neg htr] at h
      cases hpi : pyIn "action" d <;> simp only [hpi] at h
      · simp at h
      · rename_i hasAction
        by_cases hha : (!hasAction) = true
        · rw [if_pos hha] at h; simp at h
        · rw [if_neg hha] at h
          cases hps : pySubscript d "action" <;> simp only [hps] at h
          · simp at h
          · rename_i act0
            cases hpt : pyIn "tool_name" act0 <;> simp only [hpt] at h
            · simp at h
            · rename_i hasTool
              by_cases hht : (!hasTool) = true
              · rw [if_pos hht] at h; simp at h
              · rw [if_neg hht] at h
                exact ⟨d, rfl, h⟩

/-- One iteration whose reasoning call raised. -/
theorem step_err (env : AgentEnv) (msgs : List Msg) (e : String)
    (hb : env.backend msgs = .error e) :
    step env msgs = .next (msgs ++ [⟨"user", iterErrorObs e⟩]) := by
  simp [step, hb]

/-- If an iteration returned, the backend call succeeded, the response
parsed to a dict selecting the `final_answer` sentinel, and the returned
value is its string argument, verbatim: no other path exits the loop. -/
theorem step_done_inv (env : AgentEnv) (m : List Msg) (v : PVal)
    (h : step env m = .done v) :
    ∃ out fs afs s,
      env.backend m = .ok out ∧
      extract_json_block env.loads out = some (.vdict fs) ∧
      dictGet fs "action" = some (.vdict afs) ∧
      dictGet afs "tool_name" = some (.vstr "final_answer") ∧
      dictGet afs "argument" = some (.vstr s) ∧ v = .vstr s := by
  cases hb : env.backend m with
  | error e => rw [step_err env m e hb] at h; simp at h
  | ok out =>
    rw [step_ok env m out hb] at h
    cases hsb : stepBody env (m ++ [⟨"assistant", out⟩]) out <;>
      simp only [hsb] at h
    · simp at h
    · rename_i r
      cases r with
      | next m2 => simp at h
      | done v2 =>
        have hv2 : v2 = v := by simpa using h
        subst hv2
        obtain ⟨d, hex, hda⟩ := stepBody_done_inv env _ out v2 hsb
        obtain ⟨fs, afs, s, hd, ha, ht, harg, hv⟩ :=
          dispatchAction_done_inv env _ d v2 hda
        subst hd
        exact ⟨out, fs, afs, s, rfl, hex, ha, ht, harg, hv⟩

/-- Any `runFrom` result is either the budget-exhausted message or the
value of some iteration that returned. -/
theorem runFrom_result (env : AgentEnv) (fuel : Nat) (msgs : List Msg)
    (calls : Nat) :
    (runFrom env fuel msgs calls).1 = .vstr maxIterationsMsg ∨
    ∃ m v, step env m = .done v ∧ (runFrom env fuel msgs calls).1 = v := by
  induction fuel generalizing msgs calls with
  | zero => left; rfl
  | succ n ih =>
    cases hs : step env msgs with
    | done v =>
      right
      exact ⟨msgs, v, hs, by simp [runFrom, hs]⟩
    | next msgs2 =>
      simpa [runFrom, hs] using ih msgs2 (calls + 1)

/-- An iteration that continues advances the loop with one more call. -/
theorem runFrom_next (env : AgentEnv) (fuel : Nat) (msgs msgs2 : List Msg)
    (calls : Nat) (hs : step env msgs = .next msgs2) :
    runFrom env (fuel + 1) msgs calls = runFrom env fuel msgs2 (calls + 1) := by
  simp [runFrom, hs]

/-- An iteration that returns ends the run with one more call. -/
theorem runFrom_done (env : AgentEnv) (fuel : Nat) (msgs : List Msg)
    (calls : Nat) (v : PVal) (hs : step env msgs = .done v) :
    runFrom env (fuel + 1) msgs calls = (v, calls + 1) := by
  simp [runFrom, hs]

end AgentPro

namespace AgentPro

/-! ### The run under a sentinel-free trajectory -/

/-- If no iteration along this run's trajectory returns, the loop spends
its whole budget, one reasoning call per iteration, and ends with the
fixed budget-exhausted message. -/
theorem runFrom_budget (env : AgentEnv) (fuel : Nat) (msgs : List Msg)
    (calls : Nat)
    (h : ∀ i v, step env (iterateMsgs env i msgs) ≠ .done v) :
    runFrom env fuel msgs calls = (.vstr maxIterationsMsg, calls + fuel) := by
  induction fuel generalizing msgs calls with
  | zero => rfl
  | succ n ih =>
    cases hs : step env msgs with
    | done v => exact absurd hs (h 0 v)
    | next m2 =>
      rw [runFrom_next env n msgs m2 calls hs]
      have h' : ∀ i v, step env (iterateMsgs env i m2) ≠ .done v := by
        intro i v
        have := h (i + 1) v
        rwa [iterateMsgs, hs] at this
      rw [ih m2 (calls + 1) h']
      have harith : calls + 1 + n = calls + (n + 1) := by omega
      rw [harith]

/-- One parse-failure iteration: a successfully decoded dict that lacks
the `action` member, or whose `action` dict lacks `tool_name`, takes the
line-148 guard's corrective branch. -/
theorem stepBody_parseFailure (env : AgentEnv) (msgs1 : List Msg)
    (out : String) (fs : List (String × PVal))
    (he : extract_json_block env.loads out = some (.vdict fs))
    (h : dictGet fs "action" = none ∨
      ∃ afs, dictGet fs "action" = some (.vdict afs) ∧
        dictGet afs "tool_name" = none) :
    stepBody env msgs1 out =
      .ok (.next (msgs1 ++ [⟨"user", parseFailureObs⟩])) := by
  rcases h with h | ⟨afs, ha, ht⟩
  · cases fs with
    | nil => simp [stepBody, he, truthy]
    | cons p rest => simp [stepBody, he, truthy, pyIn, h]
  · have hfs := isEmpty_false_of_dictGet ha
    simp [stepBody, he, truthy, hfs, pyIn, ha, pySubscript, ht]

end AgentPro

namespace AgentPro

/-! ## The claims -/

/-- C1: the spec claims that for a response whose entire text is not
valid JSON but which contains a fenced block labeled `json`
(case-insensitively) with valid content, `extract_json_block` falls back
to the inner content and succeeds.  The code does not: the raw-string
pattern `r"```json\\n(.*?)\\n```"` requires a literal backslash-n on
both sides of the group, so a real fenced block — newline-delimited, as
the system prompt instructs — never matches, and the parser returns
`None`.  `c1Text` satisfies every premise (its whole text is rejected by
`c1Loads`, it contains the opener `` ```json`` + newline, and the
enclosed content `c1Inner` parses), yet the regex finds nothing and
extraction returns `none`. -/
theorem c1_fenced_block_fallback_returns_none :
    c1Loads c1Text = none ∧
    c1Loads c1Inner = some (.vdict [("answer", .vnum 42)]) ∧
    hasSubstring "```json\n".data c1Text.data = true ∧
    regexSearchBlock c1Text.data = none ∧
    extract_json_block c1Loads c1Text = none :=
  ⟨rfl, rfl, rfl, rfl, rfl⟩

/-- C2 counterexample: the claim says looking up the registry with
`"Internet Search Tool"` or `"internet-search-tool"` resolves to the
same entry as `"internet_search_tool"`.  The loop's lookup
(`tool_name not in self.tools`, `self.tools[tool_name]`) uses the raw
parsed string with no normalization, so both spellings miss the entry
that `"internet_search_tool"` finds. -/
theorem c2_counterexample_lookup_not_normalized :
    toolsLookup searchRegistry "internet_search_tool" =
      some InternetSearchTool ∧
    toolsLookup searchRegistry "Internet Search Tool" = none ∧
    toolsLookup searchRegistry "internet-search-tool" = none :=
  ⟨rfl, rfl, rfl⟩

/-- C2 (amended): normalization is idempotent and registering
`"Internet Search Tool"` yields the identifier `internet_search_tool`,
but lookups are not normalized: only the exact normalized identifier
resolves; the spellings `"Internet Search Tool"` and
`"internet-search-tool"` are not found in the registry. -/
theorem c2_normalization_idempotent_lookup_exact :
    (∀ s : String, normalizeName (normalizeName s) = normalizeName s) ∧
    InternetSearchTool.name = "internet_search_tool" ∧
    (agentInit [InternetSearchTool]).map Prod.fst =
      ["internet_search_tool"] ∧
    toolsLookup searchRegistry "internet_search_tool" =
      some InternetSearchTool ∧
    pyDictMem searchRegistry (.vstr "internet_search_tool") = .ok true ∧
    pyDictMem searchRegistry (.vstr "Internet Search Tool") = .ok false ∧
    pyDictMem searchRegistry (.vstr "internet-search-tool") = .ok false :=
  ⟨normalizeName_idem, rfl, rfl, rfl, rfl, rfl, rfl⟩

/-- C3 counterexample: the claim says registering two tools whose names
normalize to the same identifier is rejected as a configuration error.
`ReActAgent.__init__` builds the registry with a dict comprehension, so
the construction succeeds and silently keeps only the later tool: the
two colliding tools below register into an ordinary one-entry registry
holding the second descriptor, and no error path exists. -/
theorem c3_counterexample_duplicate_not_rejected :
    InternetSearchTool.name = InternetSearchToolClash.name ∧
    agentInit [InternetSearchTool, InternetSearchToolClash] =
      [("internet_search_tool", InternetSearchToolClash)] ∧
    InternetSearchToolClash.description ≠ InternetSearchTool.description :=
  ⟨rfl, rfl, by decide⟩

/-- C3 (amended): two tools normalizing to the same identifier are not
rejected — the later registration silently overwrites the earlier one —
and after registration every identifier in the registry maps to exactly
one descriptor (the key list of any constructed registry has no
duplicates). -/
theorem c3_registry_last_wins_keys_unique :
    agentInit [InternetSearchTool, InternetSearchToolClash] =
      [("internet_search_tool", InternetSearchToolClash)] ∧
    (∀ ts : List Tool, ((agentInit ts).map Prod.fst).Nodup) :=
  ⟨rfl, fun ts => nodup_keys_agentInit_aux ts [] List.nodup_nil⟩

/-- C4: an iteration whose parsed action selects the terminal sentinel
`final_answer` with a string argument makes `run` return that argument
verbatim with no further iterations (exactly one more reasoning call);
moreover every non-budget result of the loop arises from such a
returning iteration, and a returning iteration necessarily parsed the
`final_answer` sentinel — it is the only exit yielding a genuine
answer. -/
theorem c4_final_answer_returns_verbatim (env : AgentEnv) (msgs : List Msg)
    (out : String) (fs afs : List (String × PVal)) (s : String)
    (hb : env.backend msgs = .ok out)
    (he : extract_json_block env.loads out = some (.vdict fs))
    (ha : dictGet fs "action" = some (.vdict afs))
    (ht : dictGet afs "tool_name" = some (.vstr "final_answer"))
    (harg : dictGet afs "argument" = some (.vstr s)) :
    step env msgs = .done (.vstr s) ∧
    (∀ fuel calls, runFrom env (fuel + 1) msgs calls = (.vstr s, calls + 1)) ∧
    (∀ fuel msgs0 calls,
      (runFrom env fuel msgs0 calls).1 = .vstr maxIterationsMsg ∨
      ∃ m v, step env m = .done v ∧ (runFrom env fuel msgs0 calls).1 = v) ∧
    (∀ m v, step env m = .done v →
      ∃ out2 fs2 afs2 s2,
        env.backend m = .ok out2 ∧
        extract_json_block env.loads out2 = some (.vdict fs2) ∧
        dictGet fs2 "action" = some (.vdict afs2) ∧
        dictGet afs2 "tool_name" = some (.vstr "final_answer") ∧
        dictGet afs2 "argument" = some (.vstr s2) ∧ v = .vstr s2) := by
  have hstep : step env msgs = .done (.vstr s) := by
    rw [step_ok env msgs out hb, stepBody_dispatch env _ out he ha ht,
      dispatch_final env _ ha ht harg]
  exact ⟨hstep, fun fuel calls => runFrom_done env fuel msgs calls _ hstep,
    fun fuel msgs0 calls => runFrom_result env fuel msgs0 calls,
    fun m v h => step_done_inv env m v h⟩

/-- C4 witness: the backend of `env4` immediately selects `final_answer`
with the argument `Final report text.`, and the iteration returns it. -/
theorem c4_witness :
    step env4 [] = .done (.vstr "Final report text.") :=
  (c4_final_answer_returns_verbatim env4 [] finalOut
    [("thought", .vstr "I am done."),
     ("action", .vdict
       [("tool_name", .vstr "final_answer"),
        ("argument", .vstr "Final report text.")])]
    [("tool_name", .vstr "final_answer"),
     ("argument", .vstr "Final report text.")]
    "Final report text." rfl rfl rfl rfl rfl).1

/-- C5: if no iteration of the run produces the terminal sentinel, `run`
returns the fixed budget-exhausted error message — a value distinct from
any tool-made string only by convention, but fixed — after performing
exactly `max_iterations` (default 5) reasoning-backend calls. -/
theorem c5_budget_exhausted_after_max_iterations (env : AgentEnv)
    (task : String)
    (h : ∀ i v, step env (iterateMsgs env i
      [⟨"system", _get_system_prompt env.tools⟩,
       ⟨"user", "The user's task is: " ++ task⟩]) ≠ .done v) :
    max_iterations_default = 5 ∧
    ReActAgent.run env max_iterations_default task =
      (.vstr maxIterationsMsg, max_iterations_default) := by
  refine ⟨rfl, ?_⟩
  unfold ReActAgent.run
  exact runFrom_budget env max_iterations_default _ 0 h

/-- C5 witness: a backend that always answers with unparseable text
exhausts the default budget of 5 after exactly 5 calls. -/
theorem c5_witness :
    ReActAgent.run env5 max_iterations_default "Research topic X" =
      (.vstr maxIterationsMsg, max_iterations_default) :=
  (c5_budget_exhausted_after_max_iterations env5 "Research topic X"
    (by
      intro i v hv
      have hs : step env5 (iterateMsgs env5 i
          [⟨"system", _get_system_prompt env5.tools⟩,
           ⟨"user", "The user's task is: " ++ "Research topic X"⟩]) =
          .next ((iterateMsgs env5 i
            [⟨"system", _get_system_prompt env5.tools⟩,
             ⟨"user", "The user's task is: " ++ "Research topic X"⟩]) ++
            [⟨"assistant", "I refuse to emit JSON."⟩] ++
            [⟨"user", parseFailureObs⟩]) := rfl
      rw [hs] at hv
      exact StepRes.noConfusion hv)).2

end AgentPro

namespace AgentPro

/-- C6 counterexample: the claim quantifies over every iteration whose
parsed action names an unknown identifier, but when such an action
carries no argument, the display slice at line 159 raises first: the
appended observation is the generic iteration-error message, not the
claimed tool-not-found message listing the registry's identifiers. -/
theorem c6_counterexample_missing_argument :
    step env6c [] = .next
      [⟨"assistant", c6BadOut⟩,
       ⟨"user", iterErrorObs "'NoneType' object is not subscriptable"⟩] ∧
    iterErrorObs "'NoneType' object is not subscriptable" ≠
      "Observation: " ++ notFoundMsg (.vstr "missing_tool") searchRegistry :=
  ⟨rfl, by decide⟩

/-- C6 (amended): for an iteration whose parsed action names an unknown
identifier (not the sentinel) and whose argument is a string, the loop
does not raise: it appends an observation stating the tool was not found
and listing the registry's identifiers, and proceeds to the next
iteration.  (With a missing or non-string argument the display slice
raises first and the generic error observation is appended instead; the
loop still continues.) -/
theorem c6_unknown_tool_not_found_observation (env : AgentEnv)
    (msgs : List Msg) (out : String) (fs afs : List (String × PVal))
    (nm s : String)
    (hb : env.backend msgs = .ok out)
    (he : extract_json_block env.loads out = some (.vdict fs))
    (ha : dictGet fs "action" = some (.vdict afs))
    (ht : dictGet afs "tool_name" = some (.vstr nm))
    (harg : dictGet afs "argument" = some (.vstr s))
    (hne : nm ≠ "final_answer")
    (hmem : env.tools.any (fun p => p.1 = nm) = false) :
    step env msgs = .next (msgs ++ [⟨"assistant", out⟩] ++
      [⟨"user", "Observation: " ++ notFoundMsg (.vstr nm) env.tools⟩]) ∧
    (∀ fuel calls, runFrom env (fuel + 1) msgs calls =
      runFrom env fuel (msgs ++ [⟨"assistant", out⟩] ++
        [⟨"user", "Observation: " ++ notFoundMsg (.vstr nm) env.tools⟩])
        (calls + 1)) := by
  have hstep : step env msgs = .next (msgs ++ [⟨"assistant", out⟩] ++
      [⟨"user", "Observation: " ++ notFoundMsg (.vstr nm) env.tools⟩]) := by
    rw [step_ok env msgs out hb, stepBody_dispatch env _ out he ha ht,
      dispatch_notFound env _ ha ht harg hne hmem]
  exact ⟨hstep, fun fuel calls => runFrom_next env fuel msgs _ calls hstep⟩

/-- C6 witness: the action names `missing_tool` with a string argument
against the registry holding only `internet_search_tool`; the iteration
continues with the not-found observation. -/
theorem c6_witness :
    step env6 [] = .next
      [⟨"assistant", c6Out⟩,
       ⟨"user", "Observation: " ++
         notFoundMsg (.vstr "missing_tool") searchRegistry⟩] :=
  (c6_unknown_tool_not_found_observation env6 [] c6Out
    [("action", .vdict
      [("tool_name", .vstr "missing_tool"),
       ("argument", .vstr "some query")])]
    [("tool_name", .vstr "missing_tool"), ("argument", .vstr "some query")]
    "missing_tool" "some query" rfl rfl rfl rfl rfl (by decide) rfl).1

/-- C7: a dispatched tool whose execute operation raises is caught at
the dispatch boundary: the iteration appends an observation containing
the error text and the loop continues — the exception never reaches
`run`'s caller (the iteration is a total function returning `next`). -/
theorem c7_tool_exception_becomes_observation (env : AgentEnv)
    (msgs : List Msg) (out : String) (fs afs : List (String × PVal))
    (nm s e : String) (t : Tool)
    (hb : env.backend msgs = .ok out)
    (he : extract_json_block env.loads out = some (.vdict fs))
    (ha : dictGet fs "action" = some (.vdict afs))
    (ht : dictGet afs "tool_name" = some (.vstr nm))
    (harg : dictGet afs "argument" = some (.vstr s))
    (hne : nm ≠ "final_answer")
    (hlook : toolsLookup env.tools nm = some t)
    (hrun : t.run (.vstr s) = .error e) :
    step env msgs = .next (msgs ++ [⟨"assistant", out⟩] ++
      [⟨"user", "Observation: " ++ execErrorMsg (.vstr nm) e⟩]) ∧
    (∀ fuel calls, runFrom env (fuel + 1) msgs calls =
      runFrom env fuel (msgs ++ [⟨"assistant", out⟩] ++
        [⟨"user", "Observation: " ++ execErrorMsg (.vstr nm) e⟩])
        (calls + 1)) := by
  have hstep : step env msgs = .next (msgs ++ [⟨"assistant", out⟩] ++
      [⟨"user", "Observation: " ++ execErrorMsg (.vstr nm) e⟩]) := by
    rw [step_ok env msgs out hb, stepBody_dispatch env _ out he ha ht,
      dispatch_toolError env _ ha ht harg hne hlook hrun]
  exact ⟨hstep, fun fuel calls => runFrom_next env fuel msgs _ calls hstep⟩

/-- C7 witness: `CrashingTool.run` raises `simulated failure`; the
iteration appends the error observation and continues. -/
theorem c7_witness :
    step env7 [] = .next
      [⟨"assistant", c7Out⟩,
       ⟨"user", "Observation: " ++
         execErrorMsg (.vstr "crashing_tool") "simulated failure"⟩] :=
  (c7_tool_exception_becomes_observation env7 [] c7Out
    [("action", .vdict
      [("tool_name", .vstr "crashing_tool"), ("argument", .vstr "input")])]
    [("tool_name", .vstr "crashing_tool"), ("argument", .vstr "input")]
    "crashing_tool" "input" "simulated failure" CrashingTool
    rfl rfl rfl rfl rfl (by decide) rfl rfl).1

/-- C8: a response that decodes to a dict lacking the nested `action`
object, or whose action dict lacks `tool_name`, is reported as a parse
failure: no crash, no default action — the corrective observation is
appended and the loop continues without dispatching any tool (the
registry is universally quantified and never consulted). -/
theorem c8_schema_incomplete_is_parse_failure
    (loads : String → Option PVal) (tls : List (String × Tool))
    (bk : List Msg → Except String String) (msgs : List Msg) (out : String)
    (fs : List (String × PVal))
    (hb : bk msgs = .ok out)
    (he : extract_json_block loads out = some (.vdict fs))
    (h : dictGet fs "action" = none ∨
      ∃ afs, dictGet fs "action" = some (.vdict afs) ∧
        dictGet afs "tool_name" = none) :
    step ⟨loads, tls, bk⟩ msgs = .next (msgs ++ [⟨"assistant", out⟩] ++
      [⟨"user", parseFailureObs⟩]) ∧
    (∀ fuel calls, runFrom ⟨loads, tls, bk⟩ (fuel + 1) msgs calls =
      runFrom ⟨loads, tls, bk⟩ fuel
        (msgs ++ [⟨"assistant", out⟩] ++ [⟨"user", parseFailureObs⟩])
        (calls + 1)) := by
  have hstep : step ⟨loads, tls, bk⟩ msgs =
      .next (msgs ++ [⟨"assistant", out⟩] ++ [⟨"user", parseFailureObs⟩]) := by
    rw [step_ok ⟨loads, tls, bk⟩ msgs out hb,
      stepBody_parseFailure ⟨loads, tls, bk⟩ _ out fs he h]
  exact ⟨hstep,
    fun fuel calls => runFrom_next ⟨loads, tls, bk⟩ fuel msgs _ calls hstep⟩

/-- C8 witness: the response decodes to a dict with only a `thought`
key; the iteration appends the corrective observation and continues,
whatever the registry holds. -/
theorem c8_witness :
    step ⟨c8Loads, searchRegistry, c8Backend⟩ [] = .next
      [⟨"assistant", c8Out⟩, ⟨"user", parseFailureObs⟩] :=
  (c8_schema_incomplete_is_parse_failure c8Loads searchRegistry c8Backend
    [] c8Out [("thought", .vstr "pondering")] rfl rfl (Or.inl rfl)).1

set_option maxRecDepth 4096 in
/-- C9: the spec says the orchestrator's handling of an action — the
display slice `argument[:100]` included — never accesses the argument
out of range and never raises, tolerating a missing, empty or non-string
argument.  For every string the slice indeed clamps (an empty argument
is fine), but for an absent argument (`None`) the slice raises a
`TypeError`: at `env9`'s parsed action (registered tool
`internet_search_tool`, no argument field) the iteration's body raises
and the boundary handler converts it into the generic error
observation.  The spec itself flags this slice as a defect in the
source, so the code, not the claim, is wrong. -/
theorem c9_argument_slice_raises_on_none :
    (∀ s : String, sliceForLog (.vstr s) = .ok (.vstr (s.take 100))) ∧
    sliceForLog (.vstr "") = .ok (.vstr "") ∧
    sliceForLog .vnone = .error "'NoneType' object is not subscriptable" ∧
    step env9 [] = .next
      [⟨"assistant", c9Out⟩,
       ⟨"user", iterErrorObs "'NoneType' object is not subscriptable"⟩] :=
  ⟨fun _ => rfl, rfl, rfl, rfl⟩

/-- C10: an iteration that selects `final_answer` but carries no
argument does not terminate the run and does not return `None`: the
`TypeError` raised by the display slice (which precedes the sentinel
test) is caught at the iteration boundary, an observation is appended,
and the loop proceeds to the next iteration. -/
theorem c10_final_answer_without_argument_continues (env : AgentEnv)
    (msgs : List Msg) (out : String) (fs afs : List (String × PVal))
    (hb : env.backend msgs = .ok out)
    (he : extract_json_block env.loads out = some (.vdict fs))
    (ha : dictGet fs "action" = some (.vdict afs))
    (ht : dictGet afs "tool_name" = some (.vstr "final_answer"))
    (harg : dictGet afs "argument" = none) :
    (∀ v, step env msgs ≠ .done v) ∧
    step env msgs = .next (msgs ++ [⟨"assistant", out⟩] ++
      [⟨"user", iterErrorObs "'NoneType' object is not subscriptable"⟩]) ∧
    (∀ fuel calls, runFrom env (fuel + 1) msgs calls =
      runFrom env fuel (msgs ++ [⟨"assistant", out⟩] ++
        [⟨"user", iterErrorObs "'NoneType' object is not subscriptable"⟩])
        (calls + 1)) := by
  have hstep : step env msgs = .next (msgs ++ [⟨"assistant", out⟩] ++
      [⟨"user", iterErrorObs "'NoneType' object is not subscriptable"⟩]) := by
    rw [step_ok env msgs out hb, stepBody_dispatch env _ out he ha ht,
      dispatch_noneArg env _ ha ht harg]
  refine ⟨?_, hstep, fun fuel calls => runFrom_next env fuel msgs _ calls hstep⟩
  intro v hv
  rw [hstep] at hv
  exact StepRes.noConfusion hv

/-- C10 witness: `env10`'s backend selects `final_answer` with no
argument; the iteration continues with the generic error observation
instead of returning. -/
theorem c10_witness :
    step env10 [] = .next
      [⟨"assistant", c10Out⟩,
       ⟨"user", iterErrorObs "'NoneType' object is not subscriptable"⟩] :=
  (c10_final_answer_without_argument_continues env10 [] c10Out
    [("action", .vdict [("tool_name", .vstr "final_answer")])]
    [("tool_name", .vstr "final_answer")] rfl rfl rfl rfl rfl).2.1

end AgentPro
